import Mathlib

/-!
Verification of the Weather-airflow repository (two Python variants:
`src/dags/weather_etl.py`, the workflow-engine DAG, and
`src/weather_standalone.py`, the standalone script) against its
natural-language specification.

Python dictionaries are embedded as association lists over `PyVal`
(string / rational number / None); Python floats are modelled as exact
rationals; side effects (HTTP, filesystem, cloud upload, clock) are made
explicit parameters of the functions that perform them.
-/

/-- A Python scalar value as it appears in the weather records:
a string, a number (int or float, both as an exact rational), or `None`. -/
inductive PyVal where
  | str (s : String)
  | num (q : ℚ)
  | pynone
  deriving DecidableEq, Repr

/-- A Python dict with string keys, as an association list in insertion order. -/
abbrev PyDict := List (String × PyVal)

/-- Dictionary lookup: the value at the first matching key, `none` when absent. -/
def dget (m : PyDict) (k : String) : Option PyVal :=
  match m with
  | [] => none
  | (k2, v) :: rest => if k = k2 then some v else dget rest k

/-- Python `None` for an optional float field (`wind_speed`). -/
def optNum : Option ℚ → PyVal
  | some q => .num q
  | none => .pynone

/-- Python `None` for an optional int field (`clouds`, `visibility`). -/
def optInt : Option ℤ → PyVal
  | some n => .num (n : ℚ)
  | none => .pynone

/-- Python `round(x, 2)`: rounding to two decimal places.
(Python rounds ties on binary floats to even; on the exact rationals used
here the tie rule is irrelevant to every statement below, since both the
code embedding and the specification formulas use this same function.) -/
def round2 (q : ℚ) : ℚ := ((round (100 * q) : ℤ) : ℚ) / 100

/-- The spec's RawMeasurement record (§3): the dict produced by the Fetcher.
In the standalone variant the fetch result carries all eight keys
(`visibility` included); the DAG variant's fetch result carries no
`visibility` key, which `RawMeasurement.toDictDag` below reflects. -/
structure RawMeasurement where
  timestamp : String
  temperature_kelvin : ℚ
  pressure : ℤ
  humidity : ℤ
  description : String
  wind_speed : Option ℚ
  clouds : Option ℤ
  visibility : Option ℤ
  deriving DecidableEq, Repr

/-- The raw dict exactly as `get_weather_data` of `weather_standalone.py`
returns it (keys in insertion order, optional fields holding `None`). -/
def RawMeasurement.toDict (r : RawMeasurement) : PyDict :=
  [("timestamp", .str r.timestamp),
   ("temperature_kelvin", .num r.temperature_kelvin),
   ("pressure", .num (r.pressure : ℚ)),
   ("humidity", .num (r.humidity : ℚ)),
   ("description", .str r.description),
   ("wind_speed", optNum r.wind_speed),
   ("clouds", optInt r.clouds),
   ("visibility", optInt r.visibility)]

/-- The raw dict as `get_weather_data` of `dags/weather_etl.py` returns it:
same fields except that no `visibility` key is ever present. -/
def RawMeasurement.toDictDag (r : RawMeasurement) : PyDict :=
  [("timestamp", .str r.timestamp),
   ("temperature_kelvin", .num r.temperature_kelvin),
   ("pressure", .num (r.pressure : ℚ)),
   ("humidity", .num (r.humidity : ℚ)),
   ("description", .str r.description),
   ("wind_speed", optNum r.wind_speed),
   ("clouds", optInt r.clouds)]

/-- The hardcoded sample data point of `extract_data` / `transform_data`
in `dags/weather_etl.py` (timestamp is `datetime.now()` formatted,
passed in as `now`). Its dict carries no `visibility` key. -/
def sample_raw (now : String) : RawMeasurement :=
  { timestamp := now
    temperature_kelvin := 300.15
    pressure := 1015
    humidity := 70
    description := "scattered clouds"
    wind_speed := some 5.1
    clouds := some 40
    visibility := none }

/-- The per-record mapping of `transform_data` in `dags/weather_etl.py`
(lines 164-174): Celsius conversion plus explicit field copies;
`wind_speed` and `clouds` via `.get`, no `visibility` key in the output. -/
def transformPointDag (r : RawMeasurement) : PyDict :=
  [("timestamp", .str r.timestamp),
   ("temperature_celsius", .num (round2 (r.temperature_kelvin - 273.15))),
   ("pressure", .num (r.pressure : ℚ)),
   ("humidity", .num (r.humidity : ℚ)),
   ("description", .str r.description),
   ("wind_speed", optNum r.wind_speed),
   ("clouds", optInt r.clouds)]

/-- The per-record mapping of `transform_weather_data` in
`weather_standalone.py` (lines 119-128): Celsius conversion, the Kelvin
value retained, and only `timestamp`, `pressure`, `humidity`,
`description` copied; no `wind_speed`, `clouds` or `visibility` key. -/
def transformPointStandalone (r : RawMeasurement) : PyDict :=
  [("timestamp", .str r.timestamp),
   ("temperature_celsius", .num (round2 (r.temperature_kelvin - 273.15))),
   ("temperature_kelvin", .num r.temperature_kelvin),
   ("pressure", .num (r.pressure : ℚ)),
   ("humidity", .num (r.humidity : ℚ)),
   ("description", .str r.description)]

/-- The WeatherEnvelope dict built by `transform_data` in
`dags/weather_etl.py` (lines 156-162). -/
structure EnvelopeDag where
  city : String
  collection_date : String
  collection_interval : String
  data_points : ℕ
  measurements : List PyDict
  deriving DecidableEq, Repr

/-- `transform_data` of `dags/weather_etl.py`: the raw list is pulled from
the run store (`none` models a missing XCOM value); a missing or empty
list is replaced by the one-element hardcoded sample list, then the
envelope is built with `data_points = len(raw_data)` and one transformed
point appended per raw point. `now` and `today` are `datetime.now()`
formatted with the two format strings the code uses. -/
def transform_data (now today : String) (raw : Option (List RawMeasurement)) :
    EnvelopeDag :=
  let raw_data : List RawMeasurement :=
    match raw with
    | none => [sample_raw now]
    | some l => if l.isEmpty then [sample_raw now] else l
  { city := "Karachi"
    collection_date := today
    collection_interval := "Every 8 hours"
    data_points := raw_data.length
    measurements := raw_data.map transformPointDag }

/-- The WeatherEnvelope dict built by `transform_weather_data` in
`weather_standalone.py` (lines 131-138). -/
structure EnvelopeStandalone where
  city : String
  collection_date : String
  interval_minutes : ℕ
  total_hours : ℕ
  data_points : ℕ
  measurements : List PyDict
  deriving DecidableEq, Repr

/-- `transform_weather_data` of `weather_standalone.py`: empty input is a
terminal condition returning `None`; otherwise each point is transformed
and the envelope carries `data_points = len(transformed_data)`. -/
def transform_weather_data (today : String) (raw : List RawMeasurement) :
    Option EnvelopeStandalone :=
  if raw.isEmpty then none
  else
    let transformed := raw.map transformPointStandalone
    some
      { city := "Karachi"
        collection_date := today
        interval_minutes := 10
        total_hours := 8
        data_points := transformed.length
        measurements := transformed }

/-! ## Fetcher (standalone variant, `weather_standalone.py` lines 24-106) -/

/-- A JSON value as parsed from the weather API response body. -/
inductive JVal where
  | num (q : ℚ)
  | str (s : String)
  | null
  | arr (xs : List JVal)
  | obj (fields : List (String × JVal))

/-- Python `d[k]` on a JSON object; `none` models the `KeyError` (or the
`TypeError` of subscripting a non-object), which the enclosing
`try/except` of `get_weather_data` turns into a `None` result. -/
def JVal.get : JVal → String → Option JVal
  | .obj fields, k => fields.lookup k
  | _, _ => none

/-- A numeric JSON value, as consumed into a float field. -/
def JVal.asNum : JVal → Option ℚ
  | .num q => some q
  | _ => none

/-- A numeric JSON value with no fractional part, as consumed into an int
field (`pressure`, `humidity`, `clouds`, `visibility`). -/
def JVal.asInt : JVal → Option ℤ
  | .num q => if q.den = 1 then some q.num else none
  | _ => none

/-- A string JSON value, as consumed into the `description` field. -/
def JVal.asStr : JVal → Option String
  | .str s => some s
  | _ => none

/-- Python `xs[0]`; `none` models the `IndexError`/`TypeError` on an empty
or non-array value, again recovered by the enclosing `try/except`. -/
def JVal.first : JVal → Option JVal
  | .arr (x :: _) => some x
  | _ => none

/-- The outcome of one HTTP GET in `get_weather_data`:
`failure` covers every `requests.RequestException` (timeout, connection
error, and the non-2xx statuses that `raise_for_status` turns into
exceptions); `ok body` is a 200 response with parsed JSON body. -/
inductive FetchOutcome where
  | failure
  | ok (body : JVal)

/-- The field extraction of `get_weather_data` (`weather_standalone.py`
lines 48-59) applied to `data["list"][0]`: any missing key or
wrongly-shaped value makes the whole call return `None` (the `KeyError` /
`IndexError` / `TypeError` handlers); `"wind"`/`"clouds"` absent map to a
`None` field value; `visibility` uses `.get` with default `None`.
The `timestamp` field is the formatted requested timestamp `tstr`,
independent of the response body. -/
def parseForecastFields (w : JVal) :
    Option (ℚ × ℤ × ℤ × String × Option ℚ × Option ℤ × Option ℤ) := do
  let m ← w.get "main"
  let temp ← (← m.get "temp").asNum
  let pressure ← (← m.get "pressure").asInt
  let humidity ← (← m.get "humidity").asInt
  let wlist ← w.get "weather"
  let w0 ← wlist.first
  let description ← (← w0.get "description").asStr
  let wind ← match w.get "wind" with
    | none => some none
    | some wj => do
        let s ← (← wj.get "speed").asNum
        some (some s)
  let clouds ← match w.get "clouds" with
    | none => some (none : Option ℤ)
    | some cj => do
        let a ← (← cj.get "all").asInt
        some (some a)
  let visibility : Option ℤ := (w.get "visibility").bind JVal.asInt
  some (temp, pressure, humidity, description, wind, clouds, visibility)

/-- The raw record `get_weather_data` returns on a successful parse: the
extracted fields plus the `timestamp` field, which is the formatted
requested timestamp `tstr`, independent of the response body. -/
def parseForecastItem (tstr : String) (w : JVal) : Option RawMeasurement :=
  (parseForecastFields w).map (fun f =>
    { timestamp := tstr
      temperature_kelvin := f.1
      pressure := f.2.1
      humidity := f.2.2.1
      description := f.2.2.2.1
      wind_speed := f.2.2.2.2.1
      clouds := f.2.2.2.2.2.1
      visibility := f.2.2.2.2.2.2 })

/-- Seconds since 1970-01-01 00:00:00 (the wall clock with
`microsecond=0`, as `datetime.now().replace(microsecond=0)` yields). -/
abbrev Seconds := ℕ

/-- Gregorian civil date from a day count since 1970-01-01. -/
def civilFromDays (z0 : ℕ) : ℕ × ℕ × ℕ :=
  let z := z0 + 719468
  let era := z / 146097
  let doe := z % 146097
  let yoe := (doe - doe / 1460 + doe / 36524 - doe / 146096) / 365
  let y := yoe + era * 400
  let doy := doe - (365 * yoe + yoe / 4 - yoe / 100)
  let mp := (5 * doy + 2) / 153
  let d := doy - (153 * mp + 2) / 5 + 1
  let m := if mp < 10 then mp + 3 else mp - 9
  (if m ≤ 2 then y + 1 else y, m, d)

/-- Two-digit zero-padded decimal rendering. -/
def pad2 (n : ℕ) : String := if n < 10 then "0" ++ toString n else toString n

/-- Four-digit zero-padded decimal rendering. -/
def pad4 (n : ℕ) : String :=
  if n < 10 then "000" ++ toString n
  else if n < 100 then "00" ++ toString n
  else if n < 1000 then "0" ++ toString n
  else toString n

/-- Python `timestamp.strftime("%Y-%m-%d %H:%M:%S")` on a wall-clock
second count. -/
def format_time (t : Seconds) : String :=
  let p := civilFromDays (t / 86400)
  let rem := t % 86400
  pad4 p.1 ++ "-" ++ pad2 p.2.1 ++ "-" ++ pad2 p.2.2 ++ " " ++
    pad2 (rem / 3600) ++ ":" ++ pad2 (rem % 3600 / 60) ++ ":" ++ pad2 (rem % 60)

/-- `get_weather_data` of `weather_standalone.py` (lines 30-72): a request
failure or any parse failure returns `None`; a 200 body with a non-empty
`"list"` array is parsed from its first element. -/
def get_weather_data (resp : FetchOutcome) (t : Seconds) : Option RawMeasurement :=
  match resp with
  | .failure => none
  | .ok data =>
    match data.get "list" with
    | some (.arr (w :: _)) => parseForecastItem (format_time t) w
    | _ => none

def CITY_NAME : String := "Karachi"

def TOTAL_HOURS : ℕ := 8

def INTERVAL_MINUTES : ℕ := 10

/-- `total_intervals = (TOTAL_HOURS * 60) // INTERVAL_MINUTES` in
`extract_weather_data`. -/
def total_intervals : ℕ := TOTAL_HOURS * 60 / INTERVAL_MINUTES

/-- The requested timestamps of the standalone extraction loop:
`start_time + timedelta(minutes=i * INTERVAL_MINUTES)` for
`i in range(total_intervals)`. -/
def extract_request_times (start : Seconds) : List Seconds :=
  (List.range total_intervals).map (fun i => start + 60 * INTERVAL_MINUTES * i)

/-- `extract_weather_data` of `weather_standalone.py` (lines 74-106): one
fetch per requested timestamp, in loop order, appending only the
successful results. `fetch` maps each requested timestamp to the outcome
of the HTTP call made at that timestamp. -/
def extract_weather_data (fetch : Seconds → FetchOutcome) (start : Seconds) :
    List RawMeasurement :=
  (extract_request_times start).filterMap (fun t => get_weather_data (fetch t) t)

/-! ## Persister (`dags/weather_etl.py` lines 185-258) -/

/-- The column index `pandas.DataFrame(list_of_dicts)` infers: the union
of the dicts' keys in first-appearance order. -/
def dataFrameColumns (rows : List PyDict) : List String :=
  rows.foldl
    (fun acc r =>
      acc ++ ((r.map Prod.fst).filter (fun k => decide (k ∉ acc)))) []

/-- One DataFrame row under a column index: the dict's value per column,
`NaN` (modelled as `None`) where the dict lacks the column. -/
def dataFrameRow (cols : List String) (r : PyDict) : List PyVal :=
  cols.map (fun k => (dget r k).getD .pynone)

/-- The CSV written by `save_to_file` of `dags/weather_etl.py` (lines
244-246): `pd.DataFrame(transformed_data["measurements"]).to_csv(...,
index=False)`, i.e. a header of the measurement columns and one data row
per measurement; the envelope metadata never enters the frame. -/
def save_csv (env : EnvelopeDag) : List String × List (List PyVal) :=
  let cols := dataFrameColumns env.measurements
  (cols, env.measurements.map (dataFrameRow cols))

/-- Python truthiness of a record value, as `if measurement.get(k):` tests
it: `None`, `0`, `0.0` and the empty string are falsy. -/
def truthy : PyVal → Bool
  | .pynone => false
  | .num q => decide (q ≠ 0)
  | .str s => decide (s ≠ "")

/-- One line of the text report of `save_to_file` (lines 232-242),
abstracted from string rendering: the constructor is the fixed label, the
argument the interpolated value. -/
inductive ReportLine where
  | time (v : PyVal)
  | temperature (v : PyVal)
  | pressureLine (v : PyVal)
  | humidityLine (v : PyVal)
  | descriptionLine (v : PyVal)
  | windSpeed (v : PyVal)
  | cloudCoverage (v : PyVal)
  | dashes
  deriving DecidableEq, Repr

/-- The per-measurement stanza of the text report (`dags/weather_etl.py`
lines 232-242): five unconditional lines, then `Wind Speed` and
`Cloud Coverage` lines guarded by `if measurement.get(...)` truthiness,
then the dashed separator. -/
def measurement_stanza (m : PyDict) : List ReportLine :=
  [ReportLine.time ((dget m "timestamp").getD .pynone),
   ReportLine.temperature ((dget m "temperature_celsius").getD .pynone),
   ReportLine.pressureLine ((dget m "pressure").getD .pynone),
   ReportLine.humidityLine ((dget m "humidity").getD .pynone),
   ReportLine.descriptionLine ((dget m "description").getD .pynone)]
  ++ (if truthy ((dget m "wind_speed").getD .pynone) then
        [ReportLine.windSpeed ((dget m "wind_speed").getD .pynone)] else [])
  ++ (if truthy ((dget m "clouds").getD .pynone) then
        [ReportLine.cloudCoverage ((dget m "clouds").getD .pynone)] else [])
  ++ [ReportLine.dashes]

/-! ## Uploader and standalone `main`
(`dags/weather_etl.py` lines 260-341, `weather_standalone.py` 173-263) -/

/-- The primary service-account credential path, identical in both
variants (`project_dir / "murtuza-weather-1688bc99d8e1.json"`). -/
def PRIMARY_CREDENTIAL_PATH : String :=
  "/Users/umerkhan/code/ory/fun_projects/weatherApp_airflow/murtuza-weather-1688bc99d8e1.json"

/-- The alternate credential path the DAG variant falls back to
(`project_dir / "credentials" / "murtuza-weather-1688bc99d8e1.json"`). -/
def ALT_CREDENTIAL_PATH : String :=
  "/Users/umerkhan/code/ory/fun_projects/weatherApp_airflow/credentials/murtuza-weather-1688bc99d8e1.json"

/-- The credential path the DAG uploader passes to
`from_service_account_file` (`dags/weather_etl.py` lines 288-305): the
primary path, replaced by the alternate path only when the primary file
is absent and the alternate exists. `fs` is file existence on disk. -/
def resolve_credential_dag (fs : String → Bool) : String :=
  if fs PRIMARY_CREDENTIAL_PATH then PRIMARY_CREDENTIAL_PATH
  else if fs ALT_CREDENTIAL_PATH then ALT_CREDENTIAL_PATH
  else PRIMARY_CREDENTIAL_PATH

/-- The credential path the standalone uploader passes to
`from_service_account_file` (`weather_standalone.py` line 182): the
hardcoded `SERVICE_ACCOUNT_FILE`, with no existence check and no
fallback; `fs` is accepted only to expose the independence. -/
def standalone_credential_path (fs : String → Bool) : String :=
  PRIMARY_CREDENTIAL_PATH

/-- The external conditions of one run: file existence on disk, whether
the local file write succeeds, whether the authenticated Drive call
succeeds, and the remote id Drive would assign. -/
structure RunWorld where
  fetch : Seconds → FetchOutcome
  fs : String → Bool
  save_ok : Bool
  drive_ok : Bool
  drive_id : String

/-- The body of the standalone uploader's `try` block: loading a
credential from a nonexistent file raises, and any Drive-side failure
raises; success returns the created file id. -/
def upload_attempt (w : RunWorld) : Except String String :=
  if ¬ w.fs (standalone_credential_path w.fs) then
    .error "service account file not found"
  else if ¬ w.drive_ok then .error "drive api error"
  else .ok w.drive_id

/-- `upload_to_google_drive` of `weather_standalone.py` (lines 173-225):
no file path returns `None` at once; otherwise every exception of the
`try` block is caught and turned into a `None` return — nothing
propagates to the caller. -/
def upload_to_google_drive (w : RunWorld) (file_path : Option String) :
    Option String :=
  match file_path with
  | none => none
  | some _ =>
    match upload_attempt w with
    | .ok fid => some fid
    | .error _ => none

/-- The DAG uploader (`dags/weather_etl.py` lines 260-341): resolves the
credential with the fallback, then attempts the upload; every exception
is caught and only logged, so the task reports success regardless.
Returns whether the upload itself succeeded. -/
def upload_to_google_drive_dag (w : RunWorld) : Bool :=
  w.fs (resolve_credential_dag w.fs) && w.drive_ok

/-- The observable outcome of one standalone run. -/
structure RunResult where
  save_called : Bool
  upload_called : Bool
  upload_result : Option String
  exit_code : ℕ
  deriving DecidableEq, Repr

/-- The artifact path `save_to_file` of `weather_standalone.py` returns:
`weather_data/{city}_weather_data_{timestamp}.json` with the lowercase
city name and `now` the second-resolution filename timestamp. -/
def standalone_save_path (now_file : String) : String :=
  "weather_data/karachi_weather_data_" ++ now_file ++ ".json"

/-- `main` of `weather_standalone.py` (lines 227-263): extract, then
transform; a `None` transform result skips persistence and upload
("No data to save") and exits 0; otherwise `save_to_file` runs (its I/O
failure re-raises into the top-level handler, which returns 1), then
`upload_to_google_drive` runs on the saved path (its failure is
swallowed), and the run exits 0. `today` and `now_file` are the two
`datetime.now()` format renderings used for metadata and filename. -/
def standalone_main (w : RunWorld) (start : Seconds) (today now_file : String) :
    RunResult :=
  let raw := extract_weather_data w.fetch start
  match transform_weather_data today raw with
  | none =>
    { save_called := false, upload_called := false
      upload_result := none, exit_code := 0 }
  | some _ =>
    if w.save_ok then
      let fid := upload_to_google_drive w (some (standalone_save_path now_file))
      { save_called := true, upload_called := true
        upload_result := fid, exit_code := 0 }
    else
      { save_called := true, upload_called := false
        upload_result := none, exit_code := 1 }

/-! ## Constants of the statements: column index, claim formalizations,
concrete inputs used by witnesses and counterexamples -/

/-- The column index of every DAG transformed measurement frame. -/
def csv_header : List String :=
  ["timestamp", "temperature_celsius", "pressure", "humidity", "description",
   "wind_speed", "clouds"]

/-- The fields claim C1 asserts to pass through unchanged. -/
def claim1_fields : List String :=
  ["timestamp", "pressure", "humidity", "description", "wind_speed", "clouds",
   "visibility"]

/-- Claim C1 as stated, for one transformed record `out` against the raw
record `r`: correct Celsius conversion plus unchanged pass-through of
every other field of `r`. -/
def claim1_spec (out : PyDict) (r : RawMeasurement) : Prop :=
  dget out "temperature_celsius"
      = some (.num (round2 (r.temperature_kelvin - 273.15)))
    ∧ ∀ k ∈ claim1_fields, dget out k = dget r.toDict k

/-- Modelled from the spec's words for comparison (claim C7): resolve the
credential "from a well-known local path (with one fallback alternate
path if the primary is absent)". -/
def spec_resolve_with_fallback (fs : String → Bool) : String :=
  if fs PRIMARY_CREDENTIAL_PATH then PRIMARY_CREDENTIAL_PATH
  else if fs ALT_CREDENTIAL_PATH then ALT_CREDENTIAL_PATH
  else PRIMARY_CREDENTIAL_PATH

/-- A fully-populated valid raw measurement. -/
def c1_refuting_input : RawMeasurement :=
  { timestamp := "2025-01-01 00:00:00"
    temperature_kelvin := 300
    pressure := 1013
    humidity := 60
    description := "clear sky"
    wind_speed := some 5.1
    clouds := some 40
    visibility := some 10000 }

/-- The standalone envelope of one sample measurement. -/
def c2_env : EnvelopeStandalone :=
  { city := "Karachi"
    collection_date := "2025-03-22"
    interval_minutes := 10
    total_hours := 8
    data_points := 1
    measurements := [transformPointStandalone (sample_raw "2025-03-22 08:00:00")] }

/-- A world in which every fetch fails. -/
def c3_world : RunWorld :=
  { fetch := fun _ => .failure
    fs := fun _ => false
    save_ok := true
    drive_ok := false
    drive_id := "" }

/-- A world in which only the alternate credential file exists and the
Drive call would succeed. -/
def c7_world : RunWorld :=
  { fetch := fun _ => .failure
    fs := fun s => s == ALT_CREDENTIAL_PATH
    save_ok := true
    drive_ok := true
    drive_id := "drive-file-1" }

/-- The one-measurement raw input of the spec's CSV example. -/
def c8_example_raw : RawMeasurement :=
  { timestamp := "2025-01-01 00:00:00"
    temperature_kelvin := 300
    pressure := 1013
    humidity := 60
    description := "clear sky"
    wind_speed := none
    clouds := none
    visibility := none }

/-- A raw measurement with wind speed 0.0 and cloud coverage 0. -/
def c9_zero_raw : RawMeasurement :=
  { timestamp := "2025-03-22 08:00:00"
    temperature_kelvin := 300
    pressure := 1000
    humidity := 50
    description := "calm"
    wind_speed := some 0
    clouds := some 0
    visibility := none }

/-- A well-formed API response body whose own `dt_txt` timestamp differs
from every requested timestamp. -/
def c10_body : JVal :=
  .obj [("list", .arr [.obj
    [("main", .obj [("temp", .num 300), ("pressure", .num 1013),
                    ("humidity", .num 60)]),
     ("weather", .arr [.obj [("description", .str "clear sky")]]),
     ("dt_txt", .str "1999-01-01 00:00:00")]])]

/-- The record `get_weather_data` produces from `c10_body` at requested
time 0. -/
def c10_record : RawMeasurement :=
  { timestamp := format_time 0
    temperature_kelvin := 300
    pressure := 1013
    humidity := 60
    description := "clear sky"
    wind_speed := none
    clouds := none
    visibility := none }

/-! ## Helper lemmas -/

theorem dget_dag_timestamp (r : RawMeasurement) :
    dget (transformPointDag r) "timestamp" = some (.str r.timestamp) := rfl

theorem dget_dag_celsius (r : RawMeasurement) :
    dget (transformPointDag r) "temperature_celsius"
      = some (.num (round2 (r.temperature_kelvin - 273.15))) := rfl

theorem dget_dag_pressure (r : RawMeasurement) :
    dget (transformPointDag r) "pressure" = some (.num (r.pressure : ℚ)) := rfl

theorem dget_dag_humidity (r : RawMeasurement) :
    dget (transformPointDag r) "humidity" = some (.num (r.humidity : ℚ)) := rfl

theorem dget_dag_description (r : RawMeasurement) :
    dget (transformPointDag r) "description" = some (.str r.description) := rfl

theorem dget_dag_wind (r : RawMeasurement) :
    dget (transformPointDag r) "wind_speed" = some (optNum r.wind_speed) := rfl

theorem dget_dag_clouds (r : RawMeasurement) :
    dget (transformPointDag r) "clouds" = some (optInt r.clouds) := rfl

theorem dget_dag_visibility (r : RawMeasurement) :
    dget (transformPointDag r) "visibility" = none := rfl

theorem dget_sa_timestamp (r : RawMeasurement) :
    dget (transformPointStandalone r) "timestamp" = some (.str r.timestamp) := rfl

theorem dget_sa_celsius (r : RawMeasurement) :
    dget (transformPointStandalone r) "temperature_celsius"
      = some (.num (round2 (r.temperature_kelvin - 273.15))) := rfl

theorem dget_sa_kelvin (r : RawMeasurement) :
    dget (transformPointStandalone r) "temperature_kelvin"
      = some (.num r.temperature_kelvin) := rfl

theorem dget_sa_pressure (r : RawMeasurement) :
    dget (transformPointStandalone r) "pressure" = some (.num (r.pressure : ℚ)) := rfl

theorem dget_sa_humidity (r : RawMeasurement) :
    dget (transformPointStandalone r) "humidity" = some (.num (r.humidity : ℚ)) := rfl

theorem dget_sa_description (r : RawMeasurement) :
    dget (transformPointStandalone r) "description" = some (.str r.description) := rfl

theorem dget_sa_wind (r : RawMeasurement) :
    dget (transformPointStandalone r) "wind_speed" = none := rfl

theorem dget_sa_clouds (r : RawMeasurement) :
    dget (transformPointStandalone r) "clouds" = none := rfl

theorem dget_sa_visibility (r : RawMeasurement) :
    dget (transformPointStandalone r) "visibility" = none := rfl

theorem dget_raw_timestamp (r : RawMeasurement) :
    dget r.toDict "timestamp" = some (.str r.timestamp) := rfl

theorem dget_raw_pressure (r : RawMeasurement) :
    dget r.toDict "pressure" = some (.num (r.pressure : ℚ)) := rfl

theorem dget_raw_humidity (r : RawMeasurement) :
    dget r.toDict "humidity" = some (.num (r.humidity : ℚ)) := rfl

theorem dget_raw_description (r : RawMeasurement) :
    dget r.toDict "description" = some (.str r.description) := rfl

theorem dget_raw_wind (r : RawMeasurement) :
    dget r.toDict "wind_speed" = some (optNum r.wind_speed) := rfl

theorem dget_raw_clouds (r : RawMeasurement) :
    dget r.toDict "clouds" = some (optInt r.clouds) := rfl

theorem dget_raw_visibility (r : RawMeasurement) :
    dget r.toDict "visibility" = some (optInt r.visibility) := rfl

/-- A successful fetch stamps the record with the formatted requested
timestamp, whatever the response body contained. -/
theorem get_weather_data_timestamp (resp : FetchOutcome) (t : Seconds)
    (r : RawMeasurement) (h : get_weather_data resp t = some r) :
    r.timestamp = format_time t := by
  cases resp with
  | failure => exact absurd h (by simp [get_weather_data])
  | ok data =>
    rw [show get_weather_data (FetchOutcome.ok data) t =
        (match data.get "list" with
          | some (JVal.arr (w :: _)) => parseForecastItem (format_time t) w
          | _ => none) from rfl] at h
    split at h
    all_goals
      first
      | exact absurd h (by simp)
      | (unfold parseForecastItem at h
         rw [Option.map_eq_some'] at h
         obtain ⟨a, -, ha⟩ := h
         rw [← ha])

theorem filterMap_map_eq_filter_map {α β γ : Type} (f : α → Option β)
    (g : β → γ) (h : α → γ) (H : ∀ a b, f a = some b → g b = h a) :
    ∀ l : List α,
      (l.filterMap f).map g = (l.filter (fun a => (f a).isSome)).map h := by
  intro l
  induction l with
  | nil => rfl
  | cons a l ih =>
    cases hfa : f a with
    | none => simp [List.filterMap_cons, List.filter_cons, hfa, ih]
    | some b => simp [List.filterMap_cons, List.filter_cons, hfa, ih, H a b hfa]

theorem getElem?_range_formula (n i : ℕ) :
    (List.range n)[i]? = if i < n then some i else none := by
  by_cases h : i < n
  · rw [if_pos h, List.getElem?_range h]
  · rw [if_neg h, List.getElem?_eq_none]
    simpa [List.length_range] using Nat.le_of_not_lt h

theorem keys_transformPointDag (r : RawMeasurement) :
    (transformPointDag r).map Prod.fst = csv_header := rfl

theorem foldl_cols_fixed (l : List RawMeasurement) :
    List.foldl
      (fun acc r =>
        acc ++ ((r.map Prod.fst).filter (fun k => decide (k ∉ acc))))
      csv_header (l.map transformPointDag) = csv_header := by
  induction l with
  | nil => rfl
  | cons r l ih =>
    simp only [List.map_cons, List.foldl_cons, keys_transformPointDag]
    rw [show (csv_header.filter (fun k => decide (k ∉ csv_header))) = [] from by decide]
    simpa using ih

theorem dataFrameColumns_transform (r : RawMeasurement) (l : List RawMeasurement) :
    dataFrameColumns ((r :: l).map transformPointDag) = csv_header := by
  simp only [dataFrameColumns, List.map_cons, List.foldl_cons, keys_transformPointDag]
  rw [show (([] : List String)
      ++ csv_header.filter (fun k => decide (k ∉ ([] : List String)))) = csv_header
    from by decide]
  exact foldl_cols_fixed l

theorem dataFrameRow_transformPointDag (r : RawMeasurement) :
    dataFrameRow csv_header (transformPointDag r)
      = [.str r.timestamp, .num (round2 (r.temperature_kelvin - 273.15)),
         .num (r.pressure : ℚ), .num (r.humidity : ℚ), .str r.description,
         optNum r.wind_speed, optInt r.clouds] := rfl


/-! ## Claim theorems -/

/-- C1, counterexample: as stated, the claim fails on the code — at the
fully-populated raw measurement `c1_refuting_input`, the standalone
transformed record does not carry the `wind_speed` field through (the key
is absent from the output), so the conjunction "temperature converted and
every other field passes through unchanged, in both variants" is false. -/
theorem c1_pass_through_counterexample :
    ¬ (claim1_spec (transformPointDag c1_refuting_input) c1_refuting_input
       ∧ claim1_spec (transformPointStandalone c1_refuting_input)
           c1_refuting_input) := by
  intro h
  have h2 := h.2.2 "wind_speed" (by decide)
  rw [dget_sa_wind, dget_raw_wind] at h2
  exact Option.noConfusion h2

/-- C1 (amended): both Normalizers convert temperature to
`round(kelvin - 273.15, 2)`; the DAG variant passes `timestamp`,
`pressure`, `humidity`, `description`, `wind_speed`, `clouds` through
unchanged but drops `visibility`; the standalone variant passes only
`timestamp`, `pressure`, `humidity`, `description` through (and retains
`temperature_kelvin`), dropping `wind_speed`, `clouds`, `visibility`. -/
theorem c1_pass_through_amended (r : RawMeasurement) :
    (dget (transformPointDag r) "temperature_celsius"
        = some (.num (round2 (r.temperature_kelvin - 273.15)))
      ∧ (∀ k ∈ ["timestamp", "pressure", "humidity", "description",
            "wind_speed", "clouds"],
          dget (transformPointDag r) k = dget r.toDict k)
      ∧ dget (transformPointDag r) "visibility" = none)
    ∧ (dget (transformPointStandalone r) "temperature_celsius"
        = some (.num (round2 (r.temperature_kelvin - 273.15)))
      ∧ dget (transformPointStandalone r) "temperature_kelvin"
          = some (.num r.temperature_kelvin)
      ∧ (∀ k ∈ ["timestamp", "pressure", "humidity", "description"],
          dget (transformPointStandalone r) k = dget r.toDict k)
      ∧ dget (transformPointStandalone r) "wind_speed" = none
      ∧ dget (transformPointStandalone r) "clouds" = none
      ∧ dget (transformPointStandalone r) "visibility" = none) := by
  refine ⟨⟨rfl, ?_, rfl⟩, rfl, rfl, ?_, rfl, rfl, rfl⟩
  · intro k hk
    fin_cases hk <;> rfl
  · intro k hk
    fin_cases hk <;> rfl

/-- C1, witness for the amended theorem at a concrete field of a concrete
record. -/
theorem c1_pass_through_amended_witness :
    dget (transformPointDag (sample_raw "2025-03-22 08:00:00")) "pressure"
      = dget (sample_raw "2025-03-22 08:00:00").toDict "pressure" :=
  (c1_pass_through_amended (sample_raw "2025-03-22 08:00:00")).1.2.1
    "pressure" (by decide)

/-- C2: every envelope either Normalizer produces satisfies
`data_points = length(measurements)`. -/
theorem c2_data_points_invariant :
    (∀ now today raw,
      (transform_data now today raw).data_points
        = (transform_data now today raw).measurements.length)
    ∧ (∀ today raw env, transform_weather_data today raw = some env →
        env.data_points = env.measurements.length) := by
  constructor
  · intro now today raw
    cases raw with
    | none => simp [transform_data]
    | some l =>
      cases l with
      | nil => simp [transform_data]
      | cons a l => simp [transform_data]
  · intro today raw env h
    cases hraw : raw.isEmpty with
    | true =>
      rw [transform_weather_data, if_pos hraw] at h
      exact Option.noConfusion h
    | false =>
      rw [transform_weather_data, if_neg (by simp [hraw])] at h
      have he := Option.some.inj h
      subst he
      rfl

/-- C2, witness: the invariant at a concrete produced envelope. -/
theorem c2_data_points_invariant_witness :
    c2_env.data_points = c2_env.measurements.length :=
  c2_data_points_invariant.2 "2025-03-22" [sample_raw "2025-03-22 08:00:00"]
    c2_env rfl

/-- C3: on empty raw input the DAG Normalizer substitutes exactly the one
hardcoded sample measurement (for a missing as well as an empty raw list),
while the standalone Normalizer returns `None` and the standalone run then
performs no persistence and no upload call and still exits 0. -/
theorem c3_empty_input_behavior :
    (∀ now today,
      (transform_data now today (some [])).measurements
          = [transformPointDag (sample_raw now)]
        ∧ (transform_data now today none).measurements
          = [transformPointDag (sample_raw now)]
        ∧ (transform_data now today (some [])).data_points = 1)
    ∧ (∀ today, transform_weather_data today [] = none)
    ∧ (∀ w start today nowf,
        extract_weather_data w.fetch start = [] →
          (standalone_main w start today nowf).save_called = false
          ∧ (standalone_main w start today nowf).upload_called = false
          ∧ (standalone_main w start today nowf).upload_result = none
          ∧ (standalone_main w start today nowf).exit_code = 0) := by
  refine ⟨fun now today => ⟨rfl, rfl, rfl⟩, fun today => rfl, ?_⟩
  intro w start today nowf hempty
  unfold standalone_main
  rw [hempty]
  exact ⟨rfl, rfl, rfl, rfl⟩

/-- C3, witness: a run in which every fetch fails performs no save and no
upload and exits 0. -/
theorem c3_empty_input_behavior_witness :
    (standalone_main c3_world 0 "2025-03-22" "20250322_080000").save_called = false
    ∧ (standalone_main c3_world 0 "2025-03-22" "20250322_080000").upload_called
        = false
    ∧ (standalone_main c3_world 0 "2025-03-22" "20250322_080000").upload_result
        = none
    ∧ (standalone_main c3_world 0 "2025-03-22" "20250322_080000").exit_code = 0 :=
  c3_empty_input_behavior.2.2 c3_world 0 "2025-03-22" "20250322_080000"
    (List.filterMap_eq_nil_iff.mpr (fun t ht => rfl))

/-- C4: every fetch failure — a request-level failure or non-200 status,
a body with no `"list"` key, an empty `"list"` array, or a first element
whose expected keys are missing — makes `get_weather_data` return `None`
instead of raising; consequently a run in which every requested timestamp
fails extracts the empty list rather than an error. -/
theorem c4_fetch_failure_recovery :
    (∀ t, get_weather_data .failure t = none)
    ∧ (∀ t body, JVal.get body "list" = none →
        get_weather_data (.ok body) t = none)
    ∧ (∀ t body, JVal.get body "list" = some (.arr []) →
        get_weather_data (.ok body) t = none)
    ∧ (∀ t body w ws, JVal.get body "list" = some (.arr (w :: ws)) →
        parseForecastFields w = none → get_weather_data (.ok body) t = none)
    ∧ (∀ fetch start, (∀ t, get_weather_data (fetch t) t = none) →
        extract_weather_data fetch start = []) := by
  refine ⟨fun t => rfl, ?_, ?_, ?_, ?_⟩
  · intro t body h
    rw [show get_weather_data (.ok body) t
        = (match JVal.get body "list" with
           | some (.arr (w :: _)) => parseForecastItem (format_time t) w
           | _ => none) from rfl, h]
  · intro t body h
    rw [show get_weather_data (.ok body) t
        = (match JVal.get body "list" with
           | some (.arr (w :: _)) => parseForecastItem (format_time t) w
           | _ => none) from rfl, h]
  · intro t body w ws h hp
    rw [show get_weather_data (.ok body) t
        = (match JVal.get body "list" with
           | some (.arr (w2 :: _)) => parseForecastItem (format_time t) w2
           | _ => none) from rfl, h]
    rw [show (match some (JVal.arr (w :: ws)) with
           | some (.arr (w2 :: _)) => parseForecastItem (format_time t) w2
           | _ => none) = parseForecastItem (format_time t) w from rfl]
    unfold parseForecastItem
    rw [hp]
    rfl
  · intro fetch start H
    exact List.filterMap_eq_nil_iff.mpr (fun t _ => H t)

/-- C4, witness: each recovered failure shape at a concrete input, and the
all-failures extraction producing the empty list. -/
theorem c4_fetch_failure_recovery_witness :
    get_weather_data .failure 0 = none
    ∧ get_weather_data (.ok (.obj [])) 0 = none
    ∧ get_weather_data (.ok (.obj [("list", .arr [])])) 0 = none
    ∧ get_weather_data (.ok (.obj [("list", .arr [JVal.null])])) 0 = none
    ∧ extract_weather_data (fun _ => .failure) 0 = [] :=
  ⟨c4_fetch_failure_recovery.1 0,
   c4_fetch_failure_recovery.2.1 0 (.obj []) rfl,
   c4_fetch_failure_recovery.2.2.1 0 (.obj [("list", .arr [])]) rfl,
   c4_fetch_failure_recovery.2.2.2.1 0 (.obj [("list", .arr [JVal.null])])
     JVal.null [] rfl rfl,
   c4_fetch_failure_recovery.2.2.2.2 (fun _ => .failure) 0
     (fun t => c4_fetch_failure_recovery.1 t)⟩

/-- C5: the standalone extraction loop requests exactly
`(TOTAL_HOURS * 60) / INTERVAL_MINUTES = 48` timestamps, the i-th being
`start + 60 * INTERVAL_MINUTES * i` (so consecutive requests are
`INTERVAL_MINUTES` minutes apart, starting at the current time); the
output accumulates at most one record per request, and can be strictly
shorter than the request count. -/
theorem c5_extraction_schedule :
    total_intervals = 48
    ∧ (∀ start, (extract_request_times start).length = total_intervals)
    ∧ (∀ start, (extract_request_times start)[0]? = some start)
    ∧ (∀ start i, (extract_request_times start)[i]?
        = if i < total_intervals then some (start + 60 * INTERVAL_MINUTES * i)
          else none)
    ∧ (∀ fetch start,
        (extract_weather_data fetch start).length ≤ total_intervals)
    ∧ (∀ start, ∃ fetch,
        (extract_weather_data fetch start).length < total_intervals) := by
  have hlen : ∀ start, (extract_request_times start).length = total_intervals := by
    intro start
    simp [extract_request_times]
  have hget : ∀ start i, (extract_request_times start)[i]?
      = if i < total_intervals then some (start + 60 * INTERVAL_MINUTES * i)
        else none := by
    intro start i
    rw [extract_request_times, List.getElem?_map, getElem?_range_formula]
    by_cases h : i < total_intervals
    · rw [if_pos h, if_pos h]
      rfl
    · rw [if_neg h, if_neg h]
      rfl
  refine ⟨rfl, hlen, ?_, hget, ?_, ?_⟩
  · intro start
    rw [hget start 0, if_pos (by decide)]
    simp
  · intro fetch start
    calc (extract_weather_data fetch start).length
        ≤ (extract_request_times start).length := List.length_filterMap_le _ _
      _ = total_intervals := hlen start
  · intro start
    refine ⟨fun _ => .failure, ?_⟩
    rw [show extract_weather_data (fun _ => .failure) start = [] from
      List.filterMap_eq_nil_iff.mpr (fun t _ => rfl)]
    decide

/-- C6: the standalone upload returns its Drive file id exactly when the
(single, primary) credential file exists and the Drive call succeeds, and
`None` on every failure, including a nonexistent credential file — no
exception escapes the Uploader; the run's exit code is 0 on every
completed run (upload failure included), and 1 exactly when the save step
raised into the top-level handler. -/
theorem c6_upload_swallowed_exit_codes :
    (∀ (w : RunWorld) (p : String),
      upload_to_google_drive w (some p)
        = if w.fs PRIMARY_CREDENTIAL_PATH ∧ w.drive_ok then some w.drive_id
          else none)
    ∧ (∀ (w : RunWorld) (start : Seconds) (today nowf : String),
        (standalone_main w start today nowf).exit_code
          = if extract_weather_data w.fetch start = [] ∨ w.save_ok then 0
            else 1) := by
  constructor
  · intro w p
    unfold upload_to_google_drive upload_attempt standalone_credential_path
    by_cases h1 : w.fs PRIMARY_CREDENTIAL_PATH <;>
      by_cases h2 : w.drive_ok <;> simp [h1, h2]
  · intro w start today nowf
    unfold standalone_main
    cases hx : extract_weather_data w.fetch start with
    | nil => simp [transform_weather_data]
    | cons a l =>
      have henv : transform_weather_data today (a :: l)
          = some { city := "Karachi", collection_date := today
                   interval_minutes := 10, total_hours := 8
                   data_points := ((a :: l).map transformPointStandalone).length
                   measurements := (a :: l).map transformPointStandalone } := rfl
      simp only [henv]
      by_cases hs : w.save_ok <;> simp [hs]

/-- C7, counterexample: as stated ("in both variants"), the claim fails —
with only the alternate credential file present, the DAG uploader resolves
the alternate path but the standalone uploader still uses the primary
path: it performs no existence check and has no fallback. -/
theorem c7_fallback_counterexample :
    ¬ (∀ fs : String → Bool,
        resolve_credential_dag fs = spec_resolve_with_fallback fs
        ∧ standalone_credential_path fs = spec_resolve_with_fallback fs) := by
  intro h
  exact absurd ((h (fun s => s == ALT_CREDENTIAL_PATH)).2) (by decide)

/-- C7 (amended): only the DAG uploader resolves the credential from the
primary path with one fallback to the alternate path; the standalone
uploader always uses the single primary path, so with only the alternate
file present the DAG upload succeeds while the standalone upload fails. -/
theorem c7_fallback_amended :
    (∀ fs : String → Bool,
      (fs PRIMARY_CREDENTIAL_PATH = true →
        resolve_credential_dag fs = PRIMARY_CREDENTIAL_PATH)
      ∧ (fs PRIMARY_CREDENTIAL_PATH = false → fs ALT_CREDENTIAL_PATH = true →
        resolve_credential_dag fs = ALT_CREDENTIAL_PATH)
      ∧ (fs PRIMARY_CREDENTIAL_PATH = false → fs ALT_CREDENTIAL_PATH = false →
        resolve_credential_dag fs = PRIMARY_CREDENTIAL_PATH)
      ∧ standalone_credential_path fs = PRIMARY_CREDENTIAL_PATH)
    ∧ (∀ (w : RunWorld) (p : String),
        w.fs PRIMARY_CREDENTIAL_PATH = false → w.fs ALT_CREDENTIAL_PATH = true →
        w.drive_ok = true →
          upload_to_google_drive_dag w = true
          ∧ upload_to_google_drive w (some p) = none) := by
  constructor
  · intro fs
    refine ⟨fun h1 => ?_, fun h1 h2 => ?_, fun h1 h2 => ?_, rfl⟩
    · rw [resolve_credential_dag, if_pos h1]
    · rw [resolve_credential_dag, if_neg (by simp [h1]), if_pos h2]
    · rw [resolve_credential_dag, if_neg (by simp [h1]), if_neg (by simp [h2])]
  · intro w p h1 h2 h3
    constructor
    · rw [upload_to_google_drive_dag, resolve_credential_dag,
        if_neg (by simp [h1]), if_pos h2, h2, h3]
      rfl
    · simp [upload_to_google_drive, upload_attempt, standalone_credential_path, h1]

/-- C7, witness for the amended theorem: the world with only the alternate
credential file. -/
theorem c7_fallback_amended_witness :
    upload_to_google_drive_dag c7_world = true
    ∧ upload_to_google_drive c7_world (some "weather_data/x.csv") = none :=
  c7_fallback_amended.2 c7_world "weather_data/x.csv" (by decide) (by decide) rfl

/-- C8: the CSV persister writes the measurement frame only — header equal
to the seven measurement columns beginning `timestamp`,
`temperature_celsius`, `pressure`, `humidity`, `description`, one row per
measurement, envelope metadata excluded; the spec's one-measurement
example yields exactly one row with the literal values. -/
theorem c8_csv_serialization :
    (∀ now today raw,
      (save_csv (transform_data now today raw)).1 = csv_header
      ∧ (save_csv (transform_data now today raw)).2
          = (transform_data now today raw).measurements.map (dataFrameRow csv_header)
      ∧ (save_csv (transform_data now today raw)).2.length
          = (transform_data now today raw).measurements.length
      ∧ (∀ k ∈ ["city", "collection_date", "collection_interval", "data_points"],
          k ∉ csv_header))
    ∧ (∀ now today,
        (save_csv (transform_data now today (some [c8_example_raw]))).2
          = [[.str "2025-01-01 00:00:00", .num 26.85, .num 1013, .num 60,
              .str "clear sky", .pynone, .pynone]]) := by
  have hcols : ∀ now today raw,
      dataFrameColumns (transform_data now today raw).measurements = csv_header := by
    intro now today raw
    cases raw with
    | none => exact dataFrameColumns_transform (sample_raw now) []
    | some l =>
      cases l with
      | nil => exact dataFrameColumns_transform (sample_raw now) []
      | cons a l => exact dataFrameColumns_transform a l
  constructor
  · intro now today raw
    refine ⟨hcols now today raw, ?_, ?_, by decide⟩
    · unfold save_csv
      rw [hcols now today raw]
    · unfold save_csv
      rw [hcols now today raw, List.length_map]
  · intro now today
    unfold save_csv
    rw [hcols now today (some [c8_example_raw])]
    rw [show (transform_data now today (some [c8_example_raw])).measurements
        = [transformPointDag c8_example_raw] from rfl]
    simp only [List.map_cons, List.map_nil, dataFrameRow_transformPointDag]
    norm_num [c8_example_raw, round2, round_eq, optNum, optInt]

/-- C8, witness: a metadata field is excluded from the header. -/
theorem c8_csv_serialization_witness :
    "data_points" ∉ csv_header :=
  (c8_csv_serialization.1 "2025-03-22 08:00:00" "2025-03-22" none).2.2.2
    "data_points" (by decide)

theorem stanza_transformPointDag (r : RawMeasurement) :
    measurement_stanza (transformPointDag r)
      = [ReportLine.time (.str r.timestamp),
         ReportLine.temperature (.num (round2 (r.temperature_kelvin - 273.15))),
         ReportLine.pressureLine (.num (r.pressure : ℚ)),
         ReportLine.humidityLine (.num (r.humidity : ℚ)),
         ReportLine.descriptionLine (.str r.description)]
        ++ (if truthy (optNum r.wind_speed) then
              [ReportLine.windSpeed (optNum r.wind_speed)] else [])
        ++ (if truthy (optInt r.clouds) then
              [ReportLine.cloudCoverage (optInt r.clouds)] else [])
        ++ [ReportLine.dashes] := rfl

/-- C9: in the DAG text report, the Wind Speed and Cloud Coverage lines
are guarded by Python truthiness — a measurement with wind speed 0.0 or
cloud coverage 0 yields a stanza with no such line, identical to the
stanza of the same measurement with the field absent. -/
theorem c9_truthiness_guard (r : RawMeasurement) :
    (r.wind_speed = some 0 ∨ r.wind_speed = none →
      ∀ v, ReportLine.windSpeed v ∉ measurement_stanza (transformPointDag r))
    ∧ (r.clouds = some 0 ∨ r.clouds = none →
      ∀ v, ReportLine.cloudCoverage v ∉ measurement_stanza (transformPointDag r))
    ∧ (r.wind_speed = some 0 →
      measurement_stanza (transformPointDag r)
        = measurement_stanza (transformPointDag { r with wind_speed := none }))
    ∧ (r.clouds = some 0 →
      measurement_stanza (transformPointDag r)
        = measurement_stanza (transformPointDag { r with clouds := none })) := by
  refine ⟨?_, ?_, ?_, ?_⟩
  · intro h v
    have hw : truthy (optNum r.wind_speed) = false := by
      rcases h with h | h <;> rw [h] <;> rfl
    by_cases hc : truthy (optInt r.clouds) <;>
      simp [stanza_transformPointDag, hw, hc]
  · intro h v
    have hc : truthy (optInt r.clouds) = false := by
      rcases h with h | h <;> rw [h] <;> rfl
    by_cases hw : truthy (optNum r.wind_speed) <;>
      simp [stanza_transformPointDag, hw, hc]
  · intro h
    rw [stanza_transformPointDag, stanza_transformPointDag, h]
    rfl
  · intro h
    rw [stanza_transformPointDag, stanza_transformPointDag, h]
    rfl

/-- C9, witness: the zero-wind zero-clouds measurement yields the same
stanza as with the fields absent, and carries no Wind Speed line. -/
theorem c9_truthiness_guard_witness :
    measurement_stanza (transformPointDag c9_zero_raw)
      = measurement_stanza (transformPointDag { c9_zero_raw with wind_speed := none })
    ∧ measurement_stanza (transformPointDag c9_zero_raw)
      = measurement_stanza (transformPointDag { c9_zero_raw with clouds := none })
    ∧ ReportLine.windSpeed (optNum c9_zero_raw.wind_speed)
        ∉ measurement_stanza (transformPointDag c9_zero_raw) :=
  ⟨(c9_truthiness_guard c9_zero_raw).2.2.1 rfl,
   (c9_truthiness_guard c9_zero_raw).2.2.2 rfl,
   (c9_truthiness_guard c9_zero_raw).1 (Or.inl rfl) _⟩

/-- C10: the standalone extractor requests strictly increasing timestamps
and is order-preserving — the output's timestamp sequence equals the
formatted successful request times in request order — and every output
record's timestamp is the formatted requested time, never a timestamp
from the response body. -/
theorem c10_order_and_timestamps (fetch : Seconds → FetchOutcome)
    (start : Seconds) :
    List.Pairwise (· < ·) (extract_request_times start)
    ∧ (extract_weather_data fetch start).map (fun r => r.timestamp)
        = ((extract_request_times start).filter
            (fun t => (get_weather_data (fetch t) t).isSome)).map format_time
    ∧ (∀ r ∈ extract_weather_data fetch start,
        ∃ t ∈ extract_request_times start,
          get_weather_data (fetch t) t = some r
          ∧ r.timestamp = format_time t) := by
  refine ⟨?_, ?_, ?_⟩
  · have key : ∀ s x y : ℕ, x < y →
        s + 60 * INTERVAL_MINUTES * x < s + 60 * INTERVAL_MINUTES * y := by
      intro s x y hxy
      have h10 : INTERVAL_MINUTES = 10 := rfl
      rw [h10]
      omega
    exact (List.pairwise_lt_range total_intervals).map _
      (fun a b hab => key start a b hab)
  · exact filterMap_map_eq_filter_map _ _ _
      (fun t r h => get_weather_data_timestamp _ _ _ h) _
  · intro r hr
    obtain ⟨t, ht, hft⟩ := List.mem_filterMap.mp hr
    exact ⟨t, ht, hft, get_weather_data_timestamp _ _ _ hft⟩

/-- C10, witness: a concrete successful record comes from its requested
time, with the response body's own divergent `dt_txt` ignored. -/
theorem c10_order_and_timestamps_witness :
    ∃ t ∈ extract_request_times 0,
      get_weather_data ((fun _ => FetchOutcome.ok c10_body) t) t = some c10_record
      ∧ c10_record.timestamp = format_time t :=
  (c10_order_and_timestamps (fun _ => .ok c10_body) 0).2.2 c10_record
    (by decide)
